import Mathlib

/-!
Shallow embedding of `src/messaging/InboundHandlerV2.mjs` (the inbound
messaging Lambda handler, the "Session Continuity Resolver" of the spec).

External collaborators (JSON.parse, DynamoDB get/put, Connect
StartChatContact / StartContactStreaming, Participant
CreateParticipantConnection / SendMessage) are modelled by an `Env` of
oracle functions; each fallible call returns `Except String α` where the
`String` is the JS error message (`error.message`).  The DynamoDB table is a
`Store : String → Option Item`; a `GetItem` either throws (per
`Env.getOutcome`) or returns the stored item, a `PutItem` either throws
(per `Env.putOutcome`) or replaces the item, matching the code's single
full-record write.  The handler additionally produces a trace of the
external calls it issued, in order, so that frame claims ("no contact is
created", "no store write") can be stated.
-/

namespace Sfdc

/-- A DynamoDB session record, as stored by the handler.  Each attribute is
optional since the code reads attributes that may be absent
(`dbResponse.Item.ConnectionToken`, `dbResponse.Item.ContactId.S`). -/
structure Item where
  ContactId : Option String
  ConnectionToken : Option String
  expiryDateTime : Option Int
deriving DecidableEq, Repr

/-- The DynamoDB table keyed by `originatingNumber`. -/
abbrev Store := String → Option Item

/-- The fields of `JSON.parse(event.body)` that the handler reads. -/
structure ParsedBody where
  firstMessage : Option String
  originatingNumber : Option String
  content : Option String
  source : Option String
  destination : Option String
deriving DecidableEq, Repr

/-- The Lambda event: `rawPath` and the raw `body` string. -/
structure Event where
  rawPath : String
  body : Option String
deriving DecidableEq, Repr

/-- Response of the Participant `SendMessage` call (`sendResponse.Id`). -/
structure SendResp where
  Id : Option String
deriving DecidableEq, Repr

/-- The `PersistentChat` block of a `StartChatContactCommand`. -/
structure PersistentChat where
  RehydrationType : String
  SourceContactId : String
deriving DecidableEq, Repr

/-- The parts of the `StartChatContactCommand` input built by the handler
(environment-variable constants `InstanceId`/`ContactFlowId` omitted). -/
structure StartChatParams where
  CustomerNumber : String
  FirstMessage : String
  DisplayName : String
  PersistentChat : Option Sfdc.PersistentChat
deriving DecidableEq, Repr

/-- A JSON response body with the fields any of the handler's
`JSON.stringify` bodies can carry; absent fields are `none`. -/
structure JsonBody where
  status : Option String
  messageId : Option String
  contactId : Option String
  error : Option String
deriving DecidableEq, Repr

/-- A response body: either a plain string (`"Missing data"`) or a JSON
object. -/
inductive RespBody where
  | raw : String → RespBody
  | json : JsonBody → RespBody
deriving DecidableEq, Repr

/-- A `{statusCode, body}` result returned by the handler. -/
structure Resp where
  statusCode : Nat
  body : RespBody
deriving DecidableEq, Repr

/-- How an invocation terminates: a returned result, or an uncaught
exception (only the `JSON.parse` before the `try` block can throw one). -/
inductive Outcome where
  | ret : Resp → Outcome
  | thrown : String → Outcome
deriving DecidableEq, Repr

/-- One external call issued by the handler, for the call trace. -/
inductive Call where
  | dynamoGet : String → Call
  | sendMsg : String → Option String → Call
  | startChat : StartChatParams → Call
  | startStreaming : String → Call
  | createConn : String → Call
  | dynamoPut : String → Item → Call
deriving DecidableEq, Repr

/-- The environment of external collaborators.  `getOutcome` / `putOutcome`
say whether the DynamoDB calls throw; on success the get reads and the put
writes the `Store` threaded through the handler. -/
structure Env where
  parseJson : String → Except String ParsedBody
  getOutcome : Except String Unit
  sendMessage : String → Option String → Except String SendResp
  startChat : StartChatParams → Except String (String × String)
  startStreaming : String → Except String Unit
  createConnection : String → Except String String
  putOutcome : Except String Unit
  now : Int
  ttlHours : Int

/-- Result of one invocation: outcome, resulting store, and the ordered
trace of external calls. -/
structure Exec where
  outcome : Outcome
  store : Store
  trace : List Call

/-- The `{statusCode: 500, body: JSON.stringify({error: error.message})}` result. -/
def err500 (e : String) : Resp :=
  ⟨500, .json ⟨none, none, none, some e⟩⟩

/-- The `{statusCode: 200, body: JSON.stringify({status: "Resumed", messageId})}` result. -/
def resumedResp (mid : Option String) : Resp :=
  ⟨200, .json ⟨some "Resumed", mid, none, none⟩⟩

/-- The `{statusCode: 200, body: JSON.stringify({status: "Created entry in DDB", contactId})}` result. -/
def createdResp (cid : String) : Resp :=
  ⟨200, .json ⟨some "Created entry in DDB", none, some cid, none⟩⟩

/-- The `{statusCode: 400, body: "Missing data"}` validation result. -/
def badResp : Resp := ⟨400, .raw "Missing data"⟩

/-- JS falsiness of an optional string: `undefined` or `""`. -/
def falsy : Option String → Bool
  | none => true
  | some s => s == ""

/-- Line 28, `const parsedBody = body ? JSON.parse(body) : {}`: an absent or
empty body parses to the empty object. -/
def parseBody (env : Env) (ev : Event) : Except String ParsedBody :=
  match ev.body with
  | none => .ok ⟨none, none, none, none, none⟩
  | some b => if b = "" then .ok ⟨none, none, none, none, none⟩ else env.parseJson b

/-- Lines 69-72, `if (!firstMessage) firstMessage = "0"`. -/
def defaultFirst : Option String → String
  | none => "0"
  | some s => if s = "" then "0" else s

/-- Result of the code before the `try` block: an uncaught `JSON.parse`
exception, a 400 validation result, or the normalised
(originatingNumber, firstMessage, content) triple. -/
inductive Pre where
  | thrownE : String → Pre
  | bad : Pre
  | proceed : String → String → Option String → Pre
deriving DecidableEq, Repr

/-- Lines 27–72 of the handler: body parsing, per-path field extraction and
validation, and the `firstMessage` defaulting. -/
def preprocess (env : Env) (ev : Event) : Pre :=
  match parseBody env ev with
  | .error e => .thrownE e
  | .ok pb =>
    if ev.rawPath = "/salesforce" then
      if falsy pb.originatingNumber || falsy pb.firstMessage then .bad
      else .proceed (pb.originatingNumber.getD "") (defaultFirst pb.firstMessage) pb.content
    else if ev.rawPath = "/modica" then
      if falsy pb.source || falsy pb.destination then .bad
      else .proceed (pb.source.getD "") (defaultFirst none) pb.content
    else .bad

/-- The `StartChatContactCommand` input: base attributes plus, when the
line-131 guard `if (previousContactId)` holds — the id is neither null nor
the (falsy) empty string — the `PersistentChat` rehydration block. -/
def mkStartChatParams (orig fm : String) (prevId : Option String) : StartChatParams :=
  { CustomerNumber := orig, FirstMessage := fm, DisplayName := orig,
    PersistentChat :=
      match prevId with
      | none => none
      | some p => if p = "" then none else some ⟨"FROM_SEGMENT", p⟩ }

/-- The full session record written by the `PutItemCommand`. -/
def mkItem (env : Env) (cid tok : String) : Item :=
  ⟨some cid, some tok, some (env.now + env.ttlHours * 3600)⟩

/-- Lines 113–194: create a new chat contact (with rehydration when
`prevId` is known), enable streaming, create the participant connection,
send the message when `firstMessage === "0"`, and persist the new record.
Any failure is caught by the outer `catch` as a 500 with the error
message, leaving the store unchanged. -/
def createPath (env : Env) (store : Store) (orig fm : String) (content : Option String)
    (prevId : Option String) (tr : List Call) : Exec :=
  let p := mkStartChatParams orig fm prevId
  match env.startChat p with
  | .error e => ⟨.ret (err500 e), store, tr ++ [.startChat p]⟩
  | .ok (cid, ptok) =>
    match env.startStreaming cid with
    | .error e => ⟨.ret (err500 e), store, tr ++ [.startChat p, .startStreaming cid]⟩
    | .ok _ =>
      match env.createConnection ptok with
      | .error e =>
        ⟨.ret (err500 e), store, tr ++ [.startChat p, .startStreaming cid, .createConn ptok]⟩
      | .ok tok =>
        let tr3 := tr ++ [.startChat p, .startStreaming cid, .createConn ptok]
        if fm = "0" then
          match env.sendMessage tok content with
          | .error e => ⟨.ret (err500 e), store, tr3 ++ [.sendMsg tok content]⟩
          | .ok _ =>
            match env.putOutcome with
            | .error e =>
              ⟨.ret (err500 e), store,
               tr3 ++ [.sendMsg tok content, .dynamoPut orig (mkItem env cid tok)]⟩
            | .ok _ =>
              ⟨.ret (createdResp cid),
               (fun k => if k = orig then some (mkItem env cid tok) else store k),
               tr3 ++ [.sendMsg tok content, .dynamoPut orig (mkItem env cid tok)]⟩
        else
          match env.putOutcome with
          | .error e => ⟨.ret (err500 e), store, tr3 ++ [.dynamoPut orig (mkItem env cid tok)]⟩
          | .ok _ =>
            ⟨.ret (createdResp cid),
             (fun k => if k = orig then some (mkItem env cid tok) else store k),
             tr3 ++ [.dynamoPut orig (mkItem env cid tok)]⟩

/-- Lines 74–199, the `try` block: DynamoDB lookup, reuse attempt when the
record has a `ConnectionToken` attribute (the reuse-send failure is the
only caught error), otherwise the creation path.  Reading
`dbResponse.Item.ContactId.S` of an item without a `ContactId` attribute
throws a `TypeError`, caught by the outer `catch` as a 500. -/
def mainFlow (env : Env) (store : Store) (orig fm : String) (content : Option String) : Exec :=
  match env.getOutcome with
  | .error e => ⟨.ret (err500 e), store, [.dynamoGet orig]⟩
  | .ok _ =>
    match store orig with
    | some it =>
      match it.ConnectionToken with
      | some storedToken =>
        match it.ContactId with
        | none =>
          ⟨.ret (err500 "TypeError: Cannot read properties of undefined"), store,
           [.dynamoGet orig]⟩
        | some prevId =>
          match env.sendMessage storedToken content with
          | .ok resp =>
            ⟨.ret (resumedResp resp.Id), store,
             [.dynamoGet orig, .sendMsg storedToken content]⟩
          | .error _ =>
            createPath env store orig fm content (some prevId)
              [.dynamoGet orig, .sendMsg storedToken content]
      | none => createPath env store orig fm content none [.dynamoGet orig]
    | none => createPath env store orig fm content none [.dynamoGet orig]

/-- The Lambda handler (`handler` in `InboundHandlerV2.mjs`): preprocessing,
then the `try`/`catch` body. -/
def handler (env : Env) (store : Store) (ev : Event) : Exec :=
  match preprocess env ev with
  | .thrownE e => ⟨.thrown e, store, []⟩
  | .bad => ⟨.ret badResp, store, []⟩
  | .proceed orig fm content => mainFlow env store orig fm content

/-- Is this call the DynamoDB `PutItemCommand`? -/
def isPut : Call → Bool
  | .dynamoPut _ _ => true
  | .dynamoGet _ => false
  | .sendMsg _ _ => false
  | .startChat _ => false
  | .startStreaming _ => false
  | .createConn _ => false

/-- Is this call the `StartChatContactCommand` (contact creation)? -/
def isStartChat : Call → Bool
  | .dynamoPut _ _ => false
  | .dynamoGet _ => false
  | .sendMsg _ _ => false
  | .startChat _ => true
  | .startStreaming _ => false
  | .createConn _ => false

/-- The three ways an invocation enters the creation path after the lookup:
no record, a record without a `ConnectionToken` attribute, or a full record
whose token fails the reuse send. -/
def reachesCreate (env : Env) (store : Store) (orig : String) (content : Option String) : Prop :=
  store orig = none ∨
  (∃ it, store orig = some it ∧ it.ConnectionToken = none) ∨
  (∃ it tok prevId e, store orig = some it ∧ it.ConnectionToken = some tok ∧
    it.ContactId = some prevId ∧ env.sendMessage tok content = .error e)

/-! Concrete instances used by witnesses and counterexamples. -/

/-- A parsed modica body: `source`/`destination`/`content` present. -/
def pbModica : ParsedBody := ⟨none, none, some "Hi", some "+640000001", some "+6421"⟩

/-- A happy-path environment: parsing yields `pbModica`, every external call
succeeds, except that sending through the stale token `"DEAD"` fails. -/
def envOk : Env where
  parseJson := fun _ => .ok pbModica
  getOutcome := .ok ()
  sendMessage := fun tok _ =>
    if tok = "DEAD" then .error "AccessDeniedException" else .ok ⟨some "m1"⟩
  startChat := fun _ => .ok ("C2", "PT")
  startStreaming := fun _ => .ok ()
  createConnection := fun _ => .ok "NT"
  putOutcome := .ok ()
  now := 100
  ttlHours := 24

/-- A modica-path event with a non-empty body. -/
def evB : Event := ⟨"/modica", some "B"⟩

/-- An empty session table. -/
def storeEmpty : Store := fun _ => none

/-- A table with a live full record for `+640000001`. -/
def storeLive : Store := fun k =>
  if k = "+640000001" then some ⟨some "C1", some "T", some 5⟩ else none

/-- A table whose record for `+640000001` holds the stale token `"DEAD"`. -/
def storeDead : Store := fun k =>
  if k = "+640000001" then some ⟨some "C1", some "DEAD", some 5⟩ else none

/-- A table whose record for `+640000001` has a `ContactId` but no
`ConnectionToken` attribute. -/
def storeNoTok : Store := fun k =>
  if k = "+640000001" then some ⟨some "C1", none, some 5⟩ else none

/-- Like `envOk` but contact creation fails with message `"boom"`. -/
def envChatFail : Env :=
  { envOk with startChat := fun _ => .error "boom" }

/-! Claims. -/

/-- C10: for every event whose body is a non-empty string that fails to
parse as JSON, the handler throws from the `JSON.parse` performed before
validation and before the `try` block, so the invocation terminates with no
`{statusCode, body}` result at all, no external call, and no store change. -/
theorem claim10_parse_throws (env : Env) (store : Store) (ev : Event) (b e : String)
    (hb : ev.body = some b) (hne : b ≠ "") (hp : env.parseJson b = .error e) :
    handler env store ev = ⟨.thrown e, store, []⟩ := by
  simp [handler, preprocess, parseBody, hb, hne, hp]

/-- Witness for C10 at a concrete unparsable body. -/
theorem claim10_witness :
    handler { envOk with parseJson := fun _ => .error "Unexpected token" } storeEmpty
        ⟨"/modica", some "not json"⟩ =
      ⟨.thrown "Unexpected token", storeEmpty, []⟩ :=
  claim10_parse_throws { envOk with parseJson := fun _ => .error "Unexpected token" }
    storeEmpty ⟨"/modica", some "not json"⟩ "not json" "Unexpected token"
    rfl (by decide) rfl

/-- C8: whenever a required field is missing (salesforce path: originating
number or first-message flag falsy; modica path: source or destination
falsy; or an unknown path), the handler returns the 400 "Missing data"
result with an empty call trace — no store lookup, no contact-center call,
no store write — and the store unchanged. -/
theorem claim8_validation_before_calls (env : Env) (store : Store) (ev : Event)
    (pb : ParsedBody) (hpb : parseBody env ev = .ok pb)
    (hbad : (ev.rawPath = "/salesforce" ∧ (falsy pb.originatingNumber ∨ falsy pb.firstMessage))
      ∨ (ev.rawPath = "/modica" ∧ (falsy pb.source ∨ falsy pb.destination))
      ∨ (ev.rawPath ≠ "/salesforce" ∧ ev.rawPath ≠ "/modica")) :
    handler env store ev = ⟨.ret badResp, store, []⟩ := by
  rcases hbad with ⟨hpath, hmiss⟩ | ⟨hpath, hmiss⟩ | ⟨h1, h2⟩
  · rcases hmiss with h | h <;> simp [handler, preprocess, hpb, hpath, h]
  · rcases hmiss with h | h <;> simp [handler, preprocess, hpb, hpath, h]
  · simp [handler, preprocess, hpb, h1, h2]

/-- Witness for C8: a salesforce event missing `firstMessage`. -/
theorem claim8_witness :
    handler envOk storeLive ⟨"/salesforce", some "B"⟩ = ⟨.ret badResp, storeLive, []⟩ :=
  claim8_validation_before_calls envOk storeLive ⟨"/salesforce", some "B"⟩ pbModica rfl
    (Or.inl ⟨rfl, Or.inr (by decide)⟩)

/-- C2: when the lookup returns a record with a (non-empty) connection token
and the reuse send succeeds, the handler returns the send result as a
`Resumed` response; the trace holds only the lookup and that send — no
contact creation, no streaming, no participant connection, no put — and the
store is returned exactly as it was. -/
theorem claim2_resumed_frame (env : Env) (store : Store) (ev : Event)
    (orig fm : String) (content : Option String) (it : Item)
    (tok prevId : String) (resp : SendResp)
    (hpre : preprocess env ev = .proceed orig fm content)
    (hget : env.getOutcome = .ok ())
    (hit : store orig = some it)
    (htok : it.ConnectionToken = some tok) (htokne : tok ≠ "")
    (hcid : it.ContactId = some prevId)
    (hsend : env.sendMessage tok content = .ok resp) :
    handler env store ev =
      ⟨.ret (resumedResp resp.Id), store, [.dynamoGet orig, .sendMsg tok content]⟩ := by
  simp [handler, hpre, mainFlow, hget, hit, htok, hcid, hsend]

/-- Witness for C2 at a live record whose token sends successfully. -/
theorem claim2_witness :
    handler envOk storeLive evB =
      ⟨.ret (resumedResp (some "m1")), storeLive,
       [.dynamoGet "+640000001", .sendMsg "T" (some "Hi")]⟩ :=
  claim2_resumed_frame envOk storeLive evB "+640000001" "0" (some "Hi")
    ⟨some "C1", some "T", some 5⟩ "T" "C1" ⟨some "m1"⟩
    rfl rfl rfl rfl (by decide) rfl rfl

/-- C9: the reuse path is idempotent: with a stored record whose token
sends successfully, two consecutive runs of the handler on the same event
both return the same `Resumed` result, and neither run changes the store. -/
theorem claim9_idempotent_resume (env : Env) (store : Store) (ev : Event)
    (orig fm : String) (content : Option String) (it : Item)
    (tok prevId : String) (resp : SendResp)
    (hpre : preprocess env ev = .proceed orig fm content)
    (hget : env.getOutcome = .ok ())
    (hit : store orig = some it)
    (htok : it.ConnectionToken = some tok) (htokne : tok ≠ "")
    (hcid : it.ContactId = some prevId)
    (hsend : env.sendMessage tok content = .ok resp) :
    (handler env store ev).outcome = .ret (resumedResp resp.Id) ∧
    (handler env store ev).store = store ∧
    (handler env (handler env store ev).store ev).outcome = .ret (resumedResp resp.Id) ∧
    (handler env (handler env store ev).store ev).store = store := by
  have h1 : handler env store ev =
      ⟨.ret (resumedResp resp.Id), store, [.dynamoGet orig, .sendMsg tok content]⟩ := by
    simp [handler, hpre, mainFlow, hget, hit, htok, hcid, hsend]
  refine ⟨by rw [h1], by rw [h1], ?_, ?_⟩ <;> rw [h1] <;> rw [h1]

/-- Witness for C9 at a live record whose token sends successfully. -/
theorem claim9_witness :
    (handler envOk storeLive evB).outcome = .ret (resumedResp (some "m1")) ∧
    (handler envOk storeLive evB).store = storeLive ∧
    (handler envOk (handler envOk storeLive evB).store evB).outcome =
      .ret (resumedResp (some "m1")) ∧
    (handler envOk (handler envOk storeLive evB).store evB).store = storeLive :=
  claim9_idempotent_resume envOk storeLive evB "+640000001" "0" (some "Hi")
    ⟨some "C1", some "T", some 5⟩ "T" "C1" ⟨some "m1"⟩
    rfl rfl rfl rfl (by decide) rfl rfl

/-- C1: when the lookup returns a record with a (non-empty) connection
token and a (non-empty, hence JS-truthy) stored contact id, and the reuse
send fails, the handler issues a `StartChatContact` whose request carries
`PersistentChat = {RehydrationType: FROM_SEGMENT, SourceContactId: <the
looked-up ContactId>}`, and overwrites the session record for the
originating number with the new contact id and the new connection token. -/
theorem claim1_rehydrate_and_overwrite (env : Env) (store : Store) (ev : Event)
    (orig fm : String) (content : Option String) (it : Item)
    (tok prevId e cid ptok newTok : String) (resp : SendResp)
    (hpre : preprocess env ev = .proceed orig fm content)
    (hget : env.getOutcome = .ok ())
    (hit : store orig = some it)
    (htok : it.ConnectionToken = some tok) (htokne : tok ≠ "")
    (hcid : it.ContactId = some prevId) (hprevne : prevId ≠ "")
    (hsend : env.sendMessage tok content = .error e)
    (hchat : ∀ p, env.startChat p = .ok (cid, ptok))
    (hstream : env.startStreaming cid = .ok ())
    (hconn : env.createConnection ptok = .ok newTok)
    (hnew : env.sendMessage newTok content = .ok resp)
    (hput : env.putOutcome = .ok ()) :
    Call.startChat (mkStartChatParams orig fm (some prevId)) ∈ (handler env store ev).trace ∧
    (mkStartChatParams orig fm (some prevId)).PersistentChat =
      some ⟨"FROM_SEGMENT", prevId⟩ ∧
    (handler env store ev).store orig = some (mkItem env cid newTok) ∧
    (handler env store ev).outcome = .ret (createdResp cid) := by
  by_cases hfm : fm = "0" <;>
    simp [handler, hpre, mainFlow, hget, hit, htok, hcid, hsend, createPath, hchat,
      hstream, hconn, hput, hnew, hfm, mkStartChatParams, hprevne]

/-- Witness for C1 at a record whose stale token fails the reuse send. -/
theorem claim1_witness :
    Call.startChat (mkStartChatParams "+640000001" "0" (some "C1")) ∈
      (handler envOk storeDead evB).trace ∧
    (mkStartChatParams "+640000001" "0" (some "C1")).PersistentChat =
      some ⟨"FROM_SEGMENT", "C1"⟩ ∧
    (handler envOk storeDead evB).store "+640000001" = some (mkItem envOk "C2" "NT") ∧
    (handler envOk storeDead evB).outcome = .ret (createdResp "C2") :=
  claim1_rehydrate_and_overwrite envOk storeDead evB "+640000001" "0" (some "Hi")
    ⟨some "C1", some "DEAD", some 5⟩ "DEAD" "C1" "AccessDeniedException" "C2" "PT" "NT"
    ⟨some "m1"⟩ rfl rfl rfl rfl (by decide) rfl (by decide) rfl (fun _ => rfl) rfl rfl rfl rfl

/-- Exhaustive case analysis of the creation path: the eight possible
leaves, each with the oracle results that select it and the exact `Exec`
it produces. -/
theorem createPath_spec (env : Env) (store : Store) (orig fm : String)
    (content : Option String) (prevId : Option String) (tr : List Call) :
    (∃ e, env.startChat (mkStartChatParams orig fm prevId) = .error e ∧
      createPath env store orig fm content prevId tr =
        ⟨.ret (err500 e), store,
         tr ++ [.startChat (mkStartChatParams orig fm prevId)]⟩) ∨
    (∃ cid ptok e, env.startChat (mkStartChatParams orig fm prevId) = .ok (cid, ptok) ∧
      env.startStreaming cid = .error e ∧
      createPath env store orig fm content prevId tr =
        ⟨.ret (err500 e), store,
         tr ++ [.startChat (mkStartChatParams orig fm prevId), .startStreaming cid]⟩) ∨
    (∃ cid ptok e, env.startChat (mkStartChatParams orig fm prevId) = .ok (cid, ptok) ∧
      env.startStreaming cid = .ok () ∧ env.createConnection ptok = .error e ∧
      createPath env store orig fm content prevId tr =
        ⟨.ret (err500 e), store,
         tr ++ [.startChat (mkStartChatParams orig fm prevId), .startStreaming cid,
                .createConn ptok]⟩) ∨
    (∃ cid ptok tok e, env.startChat (mkStartChatParams orig fm prevId) = .ok (cid, ptok) ∧
      env.startStreaming cid = .ok () ∧ env.createConnection ptok = .ok tok ∧
      fm = "0" ∧ env.sendMessage tok content = .error e ∧
      createPath env store orig fm content prevId tr =
        ⟨.ret (err500 e), store,
         tr ++ [.startChat (mkStartChatParams orig fm prevId), .startStreaming cid,
                .createConn ptok, .sendMsg tok content]⟩) ∨
    (∃ cid ptok tok resp e, env.startChat (mkStartChatParams orig fm prevId) = .ok (cid, ptok) ∧
      env.startStreaming cid = .ok () ∧ env.createConnection ptok = .ok tok ∧
      fm = "0" ∧ env.sendMessage tok content = .ok resp ∧ env.putOutcome = .error e ∧
      createPath env store orig fm content prevId tr =
        ⟨.ret (err500 e), store,
         tr ++ [.startChat (mkStartChatParams orig fm prevId), .startStreaming cid,
                .createConn ptok, .sendMsg tok content, .dynamoPut orig (mkItem env cid tok)]⟩) ∨
    (∃ cid ptok tok resp, env.startChat (mkStartChatParams orig fm prevId) = .ok (cid, ptok) ∧
      env.startStreaming cid = .ok () ∧ env.createConnection ptok = .ok tok ∧
      fm = "0" ∧ env.sendMessage tok content = .ok resp ∧ env.putOutcome = .ok () ∧
      createPath env store orig fm content prevId tr =
        ⟨.ret (createdResp cid),
         fun k => if k = orig then some (mkItem env cid tok) else store k,
         tr ++ [.startChat (mkStartChatParams orig fm prevId), .startStreaming cid,
                .createConn ptok, .sendMsg tok content, .dynamoPut orig (mkItem env cid tok)]⟩) ∨
    (∃ cid ptok tok e, env.startChat (mkStartChatParams orig fm prevId) = .ok (cid, ptok) ∧
      env.startStreaming cid = .ok () ∧ env.createConnection ptok = .ok tok ∧
      fm ≠ "0" ∧ env.putOutcome = .error e ∧
      createPath env store orig fm content prevId tr =
        ⟨.ret (err500 e), store,
         tr ++ [.startChat (mkStartChatParams orig fm prevId), .startStreaming cid,
                .createConn ptok, .dynamoPut orig (mkItem env cid tok)]⟩) ∨
    (∃ cid ptok tok, env.startChat (mkStartChatParams orig fm prevId) = .ok (cid, ptok) ∧
      env.startStreaming cid = .ok () ∧ env.createConnection ptok = .ok tok ∧
      fm ≠ "0" ∧ env.putOutcome = .ok () ∧
      createPath env store orig fm content prevId tr =
        ⟨.ret (createdResp cid),
         fun k => if k = orig then some (mkItem env cid tok) else store k,
         tr ++ [.startChat (mkStartChatParams orig fm prevId), .startStreaming cid,
                .createConn ptok, .dynamoPut orig (mkItem env cid tok)]⟩) := by
  cases h1 : env.startChat (mkStartChatParams orig fm prevId) with
  | error e => exact Or.inl ⟨e, by simp [h1], by simp [createPath, h1]⟩
  | ok pr =>
    obtain ⟨cid, ptok⟩ := pr
    cases h2 : env.startStreaming cid with
    | error e =>
      exact Or.inr (Or.inl ⟨cid, ptok, e, by simp [h1], by simp [h2],
        by simp [createPath, h1, h2]⟩)
    | ok u =>
      cases u
      cases h3 : env.createConnection ptok with
      | error e =>
        exact Or.inr (Or.inr (Or.inl
          ⟨cid, ptok, e, by simp [h1], by simp [h2], by simp [h3],
           by simp [createPath, h1, h2, h3]⟩))
      | ok tok =>
        by_cases hfm : fm = "0"
        · subst hfm
          cases h4 : env.sendMessage tok content with
          | error e =>
            exact Or.inr (Or.inr (Or.inr (Or.inl
              ⟨cid, ptok, tok, e, by simp [h1], by simp [h2], by simp [h3], rfl, by simp [h4],
               by simp [createPath, h1, h2, h3, h4]⟩)))
          | ok resp =>
            cases h5 : env.putOutcome with
            | error e =>
              exact Or.inr (Or.inr (Or.inr (Or.inr (Or.inl
                ⟨cid, ptok, tok, resp, e, by simp [h1], by simp [h2], by simp [h3], rfl,
                 by simp [h4], by simp [h5],
                 by simp [createPath, h1, h2, h3, h4, h5]⟩))))
            | ok u2 =>
              cases u2
              exact Or.inr (Or.inr (Or.inr (Or.inr (Or.inr (Or.inl
                ⟨cid, ptok, tok, resp, by simp [h1], by simp [h2], by simp [h3], rfl,
                 by simp [h4], by simp [h5],
                 by simp [createPath, h1, h2, h3, h4, h5]⟩)))))
        · cases h5 : env.putOutcome with
          | error e =>
            exact Or.inr (Or.inr (Or.inr (Or.inr (Or.inr (Or.inr (Or.inl
              ⟨cid, ptok, tok, e, by simp [h1], by simp [h2], by simp [h3], hfm, by simp [h5],
               by simp [createPath, h1, h2, h3, hfm, h5]⟩))))))
          | ok u2 =>
            cases u2
            exact Or.inr (Or.inr (Or.inr (Or.inr (Or.inr (Or.inr (Or.inr
              ⟨cid, ptok, tok, by simp [h1], by simp [h2], by simp [h3], hfm, by simp [h5],
               by simp [createPath, h1, h2, h3, hfm, h5]⟩))))))

/-- Any result returned by the creation path is either a 500 error result
or the `createdResp` of the new contact id. -/
theorem createPath_ret_shape (env : Env) (store : Store) (orig fm : String)
    (content : Option String) (prevId : Option String) (tr : List Call) (r : Resp)
    (h : (createPath env store orig fm content prevId tr).outcome = .ret r) :
    (∃ e, r = err500 e) ∨ ∃ cid, r = createdResp cid := by
  rcases createPath_spec env store orig fm content prevId tr with
    ⟨e, _, hq⟩ | ⟨c, p, e, _, _, hq⟩ | ⟨c, p, e, _, _, _, hq⟩ |
    ⟨c, p, t, e, _, _, _, _, _, hq⟩ | ⟨c, p, t, rp, e, _, _, _, _, _, _, hq⟩ |
    ⟨c, p, t, rp, _, _, _, _, _, _, hq⟩ | ⟨c, p, t, e, _, _, _, _, _, hq⟩ |
    ⟨c, p, t, _, _, _, _, _, hq⟩ <;> rw [hq] at h <;> simp at h
  · exact Or.inl ⟨e, h.symm⟩
  · exact Or.inl ⟨e, h.symm⟩
  · exact Or.inl ⟨e, h.symm⟩
  · exact Or.inl ⟨e, h.symm⟩
  · exact Or.inl ⟨e, h.symm⟩
  · exact Or.inr ⟨c, h.symm⟩
  · exact Or.inl ⟨e, h.symm⟩
  · exact Or.inr ⟨c, h.symm⟩

/-- Exhaustive case analysis of the `try` block: the six possible entry
leaves of the lookup/reuse logic, each with the oracle results that select
it and the `Exec` (or creation-path continuation) it produces. -/
theorem mainFlow_spec (env : Env) (store : Store) (orig fm : String)
    (content : Option String) :
    (∃ e, env.getOutcome = .error e ∧
      mainFlow env store orig fm content = ⟨.ret (err500 e), store, [.dynamoGet orig]⟩) ∨
    (env.getOutcome = .ok () ∧ store orig = none ∧
      mainFlow env store orig fm content =
        createPath env store orig fm content none [.dynamoGet orig]) ∨
    (∃ it, env.getOutcome = .ok () ∧ store orig = some it ∧ it.ConnectionToken = none ∧
      mainFlow env store orig fm content =
        createPath env store orig fm content none [.dynamoGet orig]) ∨
    (∃ it tok, env.getOutcome = .ok () ∧ store orig = some it ∧
      it.ConnectionToken = some tok ∧ it.ContactId = none ∧
      mainFlow env store orig fm content =
        ⟨.ret (err500 "TypeError: Cannot read properties of undefined"), store,
         [.dynamoGet orig]⟩) ∨
    (∃ it tok prevId resp, env.getOutcome = .ok () ∧ store orig = some it ∧
      it.ConnectionToken = some tok ∧ it.ContactId = some prevId ∧
      env.sendMessage tok content = .ok resp ∧
      mainFlow env store orig fm content =
        ⟨.ret (resumedResp resp.Id), store, [.dynamoGet orig, .sendMsg tok content]⟩) ∨
    (∃ it tok prevId e, env.getOutcome = .ok () ∧ store orig = some it ∧
      it.ConnectionToken = some tok ∧ it.ContactId = some prevId ∧
      env.sendMessage tok content = .error e ∧
      mainFlow env store orig fm content =
        createPath env store orig fm content (some prevId)
          [.dynamoGet orig, .sendMsg tok content]) := by
  cases hg : env.getOutcome with
  | error e => exact Or.inl ⟨e, by simp [hg], by simp [mainFlow, hg]⟩
  | ok u =>
    cases u
    cases hit : store orig with
    | none =>
      exact Or.inr (Or.inl ⟨by simp [hg], by simp [hit], by simp [mainFlow, hg, hit]⟩)
    | some it =>
      cases htok : it.ConnectionToken with
      | none =>
        exact Or.inr (Or.inr (Or.inl ⟨it, by simp [hg], by simp [hit], by simp [htok],
          by simp [mainFlow, hg, hit, htok]⟩))
      | some tok =>
        cases hcid : it.ContactId with
        | none =>
          exact Or.inr (Or.inr (Or.inr (Or.inl ⟨it, tok, by simp [hg], by simp [hit],
            by simp [htok], by simp [hcid], by simp [mainFlow, hg, hit, htok, hcid]⟩)))
        | some prevId =>
          cases hs : env.sendMessage tok content with
          | ok resp =>
            exact Or.inr (Or.inr (Or.inr (Or.inr (Or.inl ⟨it, tok, prevId, resp,
              by simp [hg], by simp [hit], by simp [htok], by simp [hcid], by simp [hs],
              by simp [mainFlow, hg, hit, htok, hcid, hs]⟩))))
          | error e =>
            exact Or.inr (Or.inr (Or.inr (Or.inr (Or.inr ⟨it, tok, prevId, e,
              by simp [hg], by simp [hit], by simp [htok], by simp [hcid], by simp [hs],
              by simp [mainFlow, hg, hit, htok, hcid, hs]⟩))))

/-- Any result returned by the `try` block is a 500 error result, a
`Resumed` result, or a `createdResp`. -/
theorem mainFlow_ret_shape (env : Env) (store : Store) (orig fm : String)
    (content : Option String) (r : Resp)
    (h : (mainFlow env store orig fm content).outcome = .ret r) :
    (∃ e, r = err500 e) ∨ (∃ mid, r = resumedResp mid) ∨ ∃ cid, r = createdResp cid := by
  unfold mainFlow at h
  repeat' split at h
  all_goals
    first
      | (simp at h; exact Or.inl ⟨_, h.symm⟩)
      | (simp at h; exact Or.inr (Or.inl ⟨_, h.symm⟩))
      | (rcases createPath_ret_shape _ _ _ _ _ _ _ _ h with ⟨e, he⟩ | ⟨cid, hc⟩
         exacts [Or.inl ⟨e, he⟩, Or.inr (Or.inr ⟨cid, hc⟩)])

/-- Any result returned by the handler is the 400 `badResp`, a 500 error
result, a `Resumed` result, or a `createdResp`. -/
theorem handler_ret_shape (env : Env) (store : Store) (ev : Event) (r : Resp)
    (h : (handler env store ev).outcome = .ret r) :
    r = badResp ∨ (∃ e, r = err500 e) ∨ (∃ mid, r = resumedResp mid) ∨
      ∃ cid, r = createdResp cid := by
  unfold handler at h
  split at h
  · simp at h
  · simp at h; exact Or.inl h.symm
  · exact Or.inr (mainFlow_ret_shape _ _ _ _ _ _ h)

/-- Frame facts about the creation path: a 500 leaf keeps the store
unchanged, the store is unchanged or holds one full new record, and — when
the incoming trace has no put — every put in the outgoing trace is its
last element. -/
theorem createPath_frame (env : Env) (store : Store) (orig fm : String)
    (content : Option String) (prevId : Option String) (tr : List Call)
    (htr : ∀ c ∈ tr, isPut c = false) :
    (∀ r, (createPath env store orig fm content prevId tr).outcome = .ret r →
      r.statusCode = 500 → (createPath env store orig fm content prevId tr).store = store) ∧
    ((createPath env store orig fm content prevId tr).store = store ∨
      ∃ orig2 cid tok, (createPath env store orig fm content prevId tr).store =
        (fun k => if k = orig2 then some (mkItem env cid tok) else store k)) ∧
    (∀ c ∈ (createPath env store orig fm content prevId tr).trace.dropLast,
      isPut c = false) := by
  rcases createPath_spec env store orig fm content prevId tr with
    ⟨e, h1, hq⟩ | ⟨c, p, e, h1, h2, hq⟩ | ⟨c, p, e, h1, h2, h3, hq⟩ |
    ⟨c, p, t, e, h1, h2, h3, hfm, h4, hq⟩ | ⟨c, p, t, rp, e, h1, h2, h3, hfm, h4, h5, hq⟩ |
    ⟨c, p, t, rp, h1, h2, h3, hfm, h4, h5, hq⟩ | ⟨c, p, t, e, h1, h2, h3, hfm, h5, hq⟩ |
    ⟨c, p, t, h1, h2, h3, hfm, h5, hq⟩ <;> rw [hq]
  all_goals refine ⟨?_, ?_, ?_⟩
  all_goals first
    | exact fun r hr h500 => rfl
    | (intro r hr h500
       simp at hr
       rw [← hr] at h500
       simp [createdResp] at h500)
    | exact Or.inl rfl
    | exact Or.inr ⟨orig, c, t, rfl⟩
    | (intro c2 hc
       simp at hc
       first
         | exact htr c2 hc
         | (rcases hc with hc | rfl; exacts [htr c2 hc, rfl])
         | (rcases hc with hc | rfl | rfl; exacts [htr c2 hc, rfl, rfl])
         | (rcases hc with hc | rfl | rfl | rfl; exacts [htr c2 hc, rfl, rfl, rfl])
         | (rcases hc with hc | rfl | rfl | rfl | rfl;
            exacts [htr c2 hc, rfl, rfl, rfl, rfl]))

/-- C6: a fatal (500) invocation leaves the store exactly as before the
invocation; in general the store after any invocation is either unchanged
or holds one complete new record (written by a put that is the last
external call of the trace), never a partially updated one. -/
theorem claim6_no_partial_write (env : Env) (store : Store) (ev : Event) :
    (∀ r, (handler env store ev).outcome = .ret r → r.statusCode = 500 →
      (handler env store ev).store = store) ∧
    ((handler env store ev).store = store ∨
      ∃ orig cid tok, (handler env store ev).store =
        (fun k => if k = orig then some (mkItem env cid tok) else store k)) ∧
    (∀ cid tok, (mkItem env cid tok).ContactId = some cid ∧
      (mkItem env cid tok).ConnectionToken = some tok ∧
      (mkItem env cid tok).expiryDateTime = some (env.now + env.ttlHours * 3600)) ∧
    (∀ c ∈ (handler env store ev).trace.dropLast, isPut c = false) := by
  have hfields : ∀ cid tok, (mkItem env cid tok).ContactId = some cid ∧
      (mkItem env cid tok).ConnectionToken = some tok ∧
      (mkItem env cid tok).expiryDateTime = some (env.now + env.ttlHours * 3600) :=
    fun _ _ => ⟨rfl, rfl, rfl⟩
  cases hp : preprocess env ev with
  | thrownE e =>
    have hq : handler env store ev = ⟨.thrown e, store, []⟩ := by simp [handler, hp]
    rw [hq]
    refine ⟨?_, Or.inl rfl, hfields, by simp⟩
    intro r hr h500
    cases hr
  | bad =>
    have hq : handler env store ev = ⟨.ret badResp, store, []⟩ := by simp [handler, hp]
    rw [hq]
    exact ⟨fun r hr h500 => rfl, Or.inl rfl, hfields, by simp⟩
  | proceed orig fm content =>
    have hq0 : handler env store ev = mainFlow env store orig fm content := by
      simp [handler, hp]
    rw [hq0]
    have htr1 : ∀ c ∈ [Call.dynamoGet orig], isPut c = false := by
      intro c hc; simp at hc; subst hc; rfl
    rcases mainFlow_spec env store orig fm content with
      ⟨e, hg, hq⟩ | ⟨hg, hst, hq⟩ | ⟨it, hg, hst, htok, hq⟩ |
      ⟨it, tok, hg, hst, htok, hcid, hq⟩ | ⟨it, tok, pid, rp, hg, hst, htok, hcid, hs, hq⟩ |
      ⟨it, tok, pid, e, hg, hst, htok, hcid, hs, hq⟩
    · rw [hq]; exact ⟨fun r hr h500 => rfl, Or.inl rfl, hfields, by simp⟩
    · rw [hq]
      obtain ⟨c1, c2, c3⟩ := createPath_frame env store orig fm content none
        [Call.dynamoGet orig] htr1
      exact ⟨c1, c2, hfields, c3⟩
    · rw [hq]
      obtain ⟨c1, c2, c3⟩ := createPath_frame env store orig fm content none
        [Call.dynamoGet orig] htr1
      exact ⟨c1, c2, hfields, c3⟩
    · rw [hq]; exact ⟨fun r hr h500 => rfl, Or.inl rfl, hfields, by simp⟩
    · rw [hq]
      refine ⟨fun r hr h500 => rfl, Or.inl rfl, hfields, ?_⟩
      intro c hc; simp at hc; subst hc; rfl
    · rw [hq]
      have htr2 : ∀ c ∈ [Call.dynamoGet orig, Call.sendMsg tok content],
          isPut c = false := by
        intro c hc; simp at hc; rcases hc with rfl | rfl <;> rfl
      obtain ⟨c1, c2, c3⟩ := createPath_frame env store orig fm content (some pid)
        [Call.dynamoGet orig, Call.sendMsg tok content] htr2
      exact ⟨c1, c2, hfields, c3⟩

/-- Witness for C6: an invocation whose contact creation fails returns 500
and leaves the stored record untouched. -/
theorem claim6_witness : (handler envChatFail storeDead evB).store = storeDead :=
  (claim6_no_partial_write envChatFail storeDead evB).1 (err500 "boom") rfl rfl

/-- C5: for every invocation that reaches the creation path (no stored
record, a token-less record, or a failed reuse send), a failure of contact
creation, streaming enablement, participant-connection creation, the
message send on the new connection, or the session-record write is fatal:
the handler returns the 500 result carrying that error's message, leaves
the store unchanged, issues exactly one StartChatContact and at most one
put (no retry), and the trace ends at the failed call.  The step-1 reuse
failure is the only caught error: with every later stage succeeding, the
invocation returns the 200 created result (first conjunct). -/
theorem claim5_fatal_after_fallback (env : Env) (store : Store) (ev : Event)
    (orig fm : String) (content : Option String)
    (hpre : preprocess env ev = .proceed orig fm content)
    (hget : env.getOutcome = .ok ())
    (hreach : reachesCreate env store orig content) :
    (∀ cid ptok newTok resp, (∀ p, env.startChat p = .ok (cid, ptok)) →
      env.startStreaming cid = .ok () → env.createConnection ptok = .ok newTok →
      env.sendMessage newTok content = .ok resp → env.putOutcome = .ok () →
      (handler env store ev).outcome = .ret (createdResp cid)) ∧
    (∀ e, (∀ p, env.startChat p = .error e) →
      (handler env store ev).outcome = .ret (err500 e) ∧
      (handler env store ev).store = store ∧
      (handler env store ev).trace.countP isStartChat = 1 ∧
      (handler env store ev).trace.countP isPut = 0 ∧
      ∃ l p, (handler env store ev).trace = l ++ [.startChat p] ∧
        env.startChat p = .error e) ∧
    (∀ cid ptok e, (∀ p, env.startChat p = .ok (cid, ptok)) →
      env.startStreaming cid = .error e →
      (handler env store ev).outcome = .ret (err500 e) ∧
      (handler env store ev).store = store ∧
      (handler env store ev).trace.countP isStartChat = 1 ∧
      (handler env store ev).trace.countP isPut = 0 ∧
      ∃ l, (handler env store ev).trace = l ++ [.startStreaming cid]) ∧
    (∀ cid ptok e, (∀ p, env.startChat p = .ok (cid, ptok)) →
      env.startStreaming cid = .ok () → env.createConnection ptok = .error e →
      (handler env store ev).outcome = .ret (err500 e) ∧
      (handler env store ev).store = store ∧
      (handler env store ev).trace.countP isStartChat = 1 ∧
      (handler env store ev).trace.countP isPut = 0 ∧
      ∃ l, (handler env store ev).trace = l ++ [.createConn ptok]) ∧
    (∀ cid ptok newTok e, (∀ p, env.startChat p = .ok (cid, ptok)) →
      env.startStreaming cid = .ok () → env.createConnection ptok = .ok newTok →
      fm = "0" → env.sendMessage newTok content = .error e →
      (handler env store ev).outcome = .ret (err500 e) ∧
      (handler env store ev).store = store ∧
      (handler env store ev).trace.countP isStartChat = 1 ∧
      (handler env store ev).trace.countP isPut = 0 ∧
      ∃ l, (handler env store ev).trace = l ++ [.sendMsg newTok content]) ∧
    (∀ cid ptok newTok resp e, (∀ p, env.startChat p = .ok (cid, ptok)) →
      env.startStreaming cid = .ok () → env.createConnection ptok = .ok newTok →
      fm = "0" → env.sendMessage newTok content = .ok resp → env.putOutcome = .error e →
      (handler env store ev).outcome = .ret (err500 e) ∧
      (handler env store ev).store = store ∧
      (handler env store ev).trace.countP isStartChat = 1 ∧
      (handler env store ev).trace.countP isPut = 1 ∧
      ∃ l, (handler env store ev).trace = l ++ [.dynamoPut orig (mkItem env cid newTok)]) ∧
    (∀ cid ptok newTok e, (∀ p, env.startChat p = .ok (cid, ptok)) →
      env.startStreaming cid = .ok () → env.createConnection ptok = .ok newTok →
      fm ≠ "0" → env.putOutcome = .error e →
      (handler env store ev).outcome = .ret (err500 e) ∧
      (handler env store ev).store = store ∧
      (handler env store ev).trace.countP isStartChat = 1 ∧
      (handler env store ev).trace.countP isPut = 1 ∧
      ∃ l, (handler env store ev).trace = l ++ [.dynamoPut orig (mkItem env cid newTok)]) := by
  obtain ⟨prevId0, tr0, hEq, htr⟩ :
      ∃ prevId0 tr0,
        handler env store ev = createPath env store orig fm content prevId0 tr0 ∧
        ∀ c ∈ tr0, isStartChat c = false ∧ isPut c = false := by
    rcases hreach with hst | ⟨it, hst, htok⟩ | ⟨it, tok, prevId, e1, hst, htok, hcid, hsend⟩
    · refine ⟨none, [.dynamoGet orig], by simp [handler, hpre, mainFlow, hget, hst], ?_⟩
      intro c hc; simp at hc; subst hc; exact ⟨rfl, rfl⟩
    · refine ⟨none, [.dynamoGet orig],
        by simp [handler, hpre, mainFlow, hget, hst, htok], ?_⟩
      intro c hc; simp at hc; subst hc; exact ⟨rfl, rfl⟩
    · refine ⟨some prevId, [.dynamoGet orig, .sendMsg tok content],
        by simp [handler, hpre, mainFlow, hget, hst, htok, hcid, hsend], ?_⟩
      intro c hc; simp at hc; rcases hc with rfl | rfl <;> exact ⟨rfl, rfl⟩
  have htrS : tr0.countP isStartChat = 0 :=
    List.countP_eq_zero.mpr (fun c hc => by simp [(htr c hc).1])
  have htrP : tr0.countP isPut = 0 :=
    List.countP_eq_zero.mpr (fun c hc => by simp [(htr c hc).2])
  rw [hEq]
  refine ⟨?_, ?_, ?_, ?_, ?_, ?_, ?_⟩
  · intro cid ptok newTok resp hchat hstream hconn hnew hput
    by_cases hfm : fm = "0" <;>
      simp [createPath, hchat, hstream, hconn, hnew, hput, hfm]
  · intro e hchat
    have hcp : createPath env store orig fm content prevId0 tr0 =
        ⟨.ret (err500 e), store,
         tr0 ++ [.startChat (mkStartChatParams orig fm prevId0)]⟩ := by
      simp [createPath, hchat]
    rw [hcp]
    refine ⟨rfl, rfl, ?_, ?_, ⟨tr0, mkStartChatParams orig fm prevId0, rfl, hchat _⟩⟩
    · simp [List.countP_append, htrS, List.countP_cons, isStartChat]
    · simp [List.countP_append, htrP, List.countP_cons, isPut]
  · intro cid ptok e hchat hstream
    have hcp : createPath env store orig fm content prevId0 tr0 =
        ⟨.ret (err500 e), store,
         tr0 ++ [.startChat (mkStartChatParams orig fm prevId0), .startStreaming cid]⟩ := by
      simp [createPath, hchat, hstream]
    rw [hcp]
    refine ⟨rfl, rfl, ?_, ?_,
      ⟨tr0 ++ [.startChat (mkStartChatParams orig fm prevId0)], by simp⟩⟩
    · simp [List.countP_append, htrS, List.countP_cons, isStartChat]
    · simp [List.countP_append, htrP, List.countP_cons, isPut]
  · intro cid ptok e hchat hstream hconn
    have hcp : createPath env store orig fm content prevId0 tr0 =
        ⟨.ret (err500 e), store,
         tr0 ++ [.startChat (mkStartChatParams orig fm prevId0), .startStreaming cid,
                 .createConn ptok]⟩ := by
      simp [createPath, hchat, hstream, hconn]
    rw [hcp]
    refine ⟨rfl, rfl, ?_, ?_,
      ⟨tr0 ++ [.startChat (mkStartChatParams orig fm prevId0), .startStreaming cid],
       by simp⟩⟩
    · simp [List.countP_append, htrS, List.countP_cons, isStartChat]
    · simp [List.countP_append, htrP, List.countP_cons, isPut]
  · intro cid ptok newTok e hchat hstream hconn hfm hnew
    subst hfm
    have hcp : createPath env store orig "0" content prevId0 tr0 =
        ⟨.ret (err500 e), store,
         tr0 ++ [.startChat (mkStartChatParams orig "0" prevId0), .startStreaming cid,
                 .createConn ptok, .sendMsg newTok content]⟩ := by
      simp [createPath, hchat, hstream, hconn, hnew]
    rw [hcp]
    refine ⟨rfl, rfl, ?_, ?_,
      ⟨tr0 ++ [.startChat (mkStartChatParams orig "0" prevId0), .startStreaming cid,
               .createConn ptok], by simp⟩⟩
    · simp [List.countP_append, htrS, List.countP_cons, isStartChat]
    · simp [List.countP_append, htrP, List.countP_cons, isPut]
  · intro cid ptok newTok resp e hchat hstream hconn hfm hnew hput
    subst hfm
    have hcp : createPath env store orig "0" content prevId0 tr0 =
        ⟨.ret (err500 e), store,
         tr0 ++ [.startChat (mkStartChatParams orig "0" prevId0), .startStreaming cid,
                 .createConn ptok, .sendMsg newTok content,
                 .dynamoPut orig (mkItem env cid newTok)]⟩ := by
      simp [createPath, hchat, hstream, hconn, hnew, hput]
    rw [hcp]
    refine ⟨rfl, rfl, ?_, ?_,
      ⟨tr0 ++ [.startChat (mkStartChatParams orig "0" prevId0), .startStreaming cid,
               .createConn ptok, .sendMsg newTok content], by simp⟩⟩
    · simp [List.countP_append, htrS, List.countP_cons, isStartChat]
    · simp [List.countP_append, htrP, List.countP_cons, isPut]
  · intro cid ptok newTok e hchat hstream hconn hfm hput
    have hcp : createPath env store orig fm content prevId0 tr0 =
        ⟨.ret (err500 e), store,
         tr0 ++ [.startChat (mkStartChatParams orig fm prevId0), .startStreaming cid,
                 .createConn ptok, .dynamoPut orig (mkItem env cid newTok)]⟩ := by
      simp [createPath, hchat, hstream, hconn, hfm, hput]
    rw [hcp]
    refine ⟨rfl, rfl, ?_, ?_,
      ⟨tr0 ++ [.startChat (mkStartChatParams orig fm prevId0), .startStreaming cid,
               .createConn ptok], by simp⟩⟩
    · simp [List.countP_append, htrS, List.countP_cons, isStartChat]
    · simp [List.countP_append, htrP, List.countP_cons, isPut]

/-- Witness for C5: concrete invocation whose contact creation fails with
`"boom"` after a failed reuse attempt — the result is the 500 carrying
`"boom"`, the store is unchanged, exactly one creation was attempted, and
the trace ends at the failed `StartChatContact`. -/
theorem claim5_witness :
    (handler envChatFail storeDead evB).outcome = .ret (err500 "boom") ∧
    (handler envChatFail storeDead evB).store = storeDead ∧
    (handler envChatFail storeDead evB).trace.countP isStartChat = 1 ∧
    (handler envChatFail storeDead evB).trace.countP isPut = 0 ∧
    ∃ l p, (handler envChatFail storeDead evB).trace = l ++ [.startChat p] ∧
      envChatFail.startChat p = .error "boom" :=
  (claim5_fatal_after_fallback envChatFail storeDead evB "+640000001" "0" (some "Hi")
    rfl rfl
    (Or.inr (Or.inr ⟨⟨some "C1", some "DEAD", some 5⟩, "DEAD", "C1",
      "AccessDeniedException", rfl, rfl, rfl, rfl⟩))).2.1 "boom" (fun _ => rfl)

/-- Counterexample to C3 as stated: on the reuse path the body's status is
`"Resumed"` but carries no `contactId` at all (only `messageId`), and on
the creation path the status string is `"Created entry in DDB"`, not
`"Created"`. -/
theorem claim3_counterexample :
    (handler envOk storeLive evB).outcome =
      .ret ⟨200, .json ⟨some "Resumed", some "m1", none, none⟩⟩ ∧
    JsonBody.contactId ⟨some "Resumed", some "m1", none, none⟩ = none ∧
    (handler envOk storeEmpty evB).outcome =
      .ret ⟨200, .json ⟨some "Created entry in DDB", none, some "C2", none⟩⟩ ∧
    "Created entry in DDB" ≠ "Created" := by
  refine ⟨rfl, rfl, rfl, by decide⟩

/-- Any 200 result of the creation path is exactly the `createdResp` of
the contact id returned by the recorded `StartChatContact` call. -/
theorem createPath_created_of_200 (env : Env) (store : Store) (orig fm : String)
    (content : Option String) (prevId : Option String) (tr : List Call) (r : Resp)
    (h : (createPath env store orig fm content prevId tr).outcome = .ret r)
    (h200 : r.statusCode = 200) :
    ∃ p ptok cid,
      Call.startChat p ∈ (createPath env store orig fm content prevId tr).trace ∧
      env.startChat p = .ok (cid, ptok) ∧ r = createdResp cid := by
  rcases createPath_spec env store orig fm content prevId tr with
    ⟨e, h1, hq⟩ | ⟨c, pt, e, h1, h2, hq⟩ | ⟨c, pt, e, h1, h2, h3, hq⟩ |
    ⟨c, pt, t, e, h1, h2, h3, hfm, h4, hq⟩ | ⟨c, pt, t, rp, e, h1, h2, h3, hfm, h4, h5, hq⟩ |
    ⟨c, pt, t, rp, h1, h2, h3, hfm, h4, h5, hq⟩ | ⟨c, pt, t, e, h1, h2, h3, hfm, h5, hq⟩ |
    ⟨c, pt, t, h1, h2, h3, hfm, h5, hq⟩ <;> rw [hq] at h <;> simp at h
  all_goals first
    | (rw [← h] at h200; simp [err500] at h200)
    | exact ⟨mkStartChatParams orig fm prevId, pt, c, by rw [hq]; simp, h1, h.symm⟩

/-- C3 amended: every non-fatal (status 200) result is tied to what the
invocation actually did.  When no contact creation occurred (reuse), the
result is exactly `resumedResp` of the messageId of the stored token's
successful send — that send is in the trace — so its status is "Resumed"
with the send's messageId and no contactId field, and the store is
unchanged.  When a contact creation occurred, the result is exactly
`createdResp` of the contact id that the recorded `StartChatContact`
returned, so its status is "Created entry in DDB" with the new contactId
present. -/
theorem claim3_amended_result_tied (env : Env) (store : Store) (ev : Event) (r : Resp)
    (h : (handler env store ev).outcome = .ret r) (h200 : r.statusCode = 200) :
    ((∀ c ∈ (handler env store ev).trace, isStartChat c = false) ∧
      (∃ tok cont resp, Call.sendMsg tok cont ∈ (handler env store ev).trace ∧
        env.sendMessage tok cont = .ok resp ∧ r = resumedResp resp.Id) ∧
      (handler env store ev).store = store) ∨
    (∃ p ptok cid, Call.startChat p ∈ (handler env store ev).trace ∧
      env.startChat p = .ok (cid, ptok) ∧ r = createdResp cid) := by
  cases hp : preprocess env ev with
  | thrownE e =>
    have hq : handler env store ev = ⟨.thrown e, store, []⟩ := by simp [handler, hp]
    rw [hq] at h
    cases h
  | bad =>
    have hq : handler env store ev = ⟨.ret badResp, store, []⟩ := by simp [handler, hp]
    rw [hq] at h
    simp at h
    rw [← h] at h200
    simp [badResp] at h200
  | proceed orig fm content =>
    have hh : handler env store ev = mainFlow env store orig fm content := by
      simp [handler, hp]
    rw [hh] at h ⊢
    rcases mainFlow_spec env store orig fm content with
      ⟨e, hg, hq⟩ | ⟨hg, hst, hq⟩ | ⟨it, hg, hst, htok, hq⟩ |
      ⟨it, tok, hg, hst, htok, hcid, hq⟩ |
      ⟨it, tok, pid, rp, hg, hst, htok, hcid, hs, hq⟩ |
      ⟨it, tok, pid, e, hg, hst, htok, hcid, hs, hq⟩
    · rw [hq] at h
      simp at h
      rw [← h] at h200
      simp [err500] at h200
    · rw [hq] at h ⊢
      exact Or.inr (createPath_created_of_200 env store orig fm content none
        [.dynamoGet orig] r h h200)
    · rw [hq] at h ⊢
      exact Or.inr (createPath_created_of_200 env store orig fm content none
        [.dynamoGet orig] r h h200)
    · rw [hq] at h
      simp at h
      rw [← h] at h200
      simp [err500] at h200
    · rw [hq] at h ⊢
      refine Or.inl ⟨?_, ⟨tok, content, rp, by simp, hs, ?_⟩, rfl⟩
      · intro c hc; simp at hc; rcases hc with rfl | rfl <;> rfl
      · simp at h; exact h.symm
    · rw [hq] at h ⊢
      exact Or.inr (createPath_created_of_200 env store orig fm content (some pid)
        [.dynamoGet orig, .sendMsg tok content] r h h200)

/-- Witness for the amended C3 at a concrete resumed invocation. -/
theorem claim3_witness :
    ((∀ c ∈ (handler envOk storeLive evB).trace, isStartChat c = false) ∧
      (∃ tok cont resp, Call.sendMsg tok cont ∈ (handler envOk storeLive evB).trace ∧
        envOk.sendMessage tok cont = .ok resp ∧
        resumedResp (some "m1") = resumedResp resp.Id) ∧
      (handler envOk storeLive evB).store = storeLive) ∨
    (∃ p ptok cid, Call.startChat p ∈ (handler envOk storeLive evB).trace ∧
      envOk.startChat p = .ok (cid, ptok) ∧ resumedResp (some "m1") = createdResp cid) :=
  claim3_amended_result_tied envOk storeLive evB (resumedResp (some "m1")) rfl rfl

/-- Counterexample to C4 as stated: a looked-up record that contains a
contact id but no connection-token attribute (so the reuse path is not
taken) leads to a creation request WITHOUT any rehydration specification:
the contact id obtained from the lookup alone is not used. -/
theorem claim4_counterexample :
    storeNoTok "+640000001" = some ⟨some "C1", none, some 5⟩ ∧
    (handler envOk storeNoTok evB).trace =
      [.dynamoGet "+640000001",
       .startChat ⟨"+640000001", "0", "+640000001", none⟩,
       .startStreaming "C2", .createConn "PT", .sendMsg "NT" (some "Hi"),
       .dynamoPut "+640000001" ⟨some "C2", some "NT", some 86500⟩] :=
  ⟨rfl, rfl⟩

/-- C4 amended: the creation request carries a FROM_SEGMENT rehydration
specification exactly when the reuse attempt was made and failed and the
stored contact id is non-empty (JS-truthy).  For any contact creation
issued by the handler: if the lookup found no record, or a record without a
connection token (even one with a contact id), the request has no
rehydration block; if it found a record with a token whose send failed, the
request points at that record's non-empty contact id, while an empty
stored contact id again yields no rehydration block (line 131,
`if (previousContactId)`). -/
theorem claim4_amended_rehydration (env : Env) (store : Store) (ev : Event)
    (orig fm : String) (content : Option String)
    (hpre : preprocess env ev = .proceed orig fm content) :
    ∀ p, Call.startChat p ∈ (handler env store ev).trace →
      ((store orig = none → p.PersistentChat = none) ∧
       (∀ it, store orig = some it → it.ConnectionToken = none →
         p.PersistentChat = none) ∧
       (∀ it tok prevId e, store orig = some it → it.ConnectionToken = some tok →
         it.ContactId = some prevId → prevId ≠ "" →
         env.sendMessage tok content = .error e →
         p.PersistentChat = some ⟨"FROM_SEGMENT", prevId⟩) ∧
       (∀ it tok e, store orig = some it → it.ConnectionToken = some tok →
         it.ContactId = some "" → env.sendMessage tok content = .error e →
         p.PersistentChat = none)) := by
  intro p hp
  have hh : handler env store ev = mainFlow env store orig fm content := by
    simp [handler, hpre]
  rw [hh] at hp
  rcases mainFlow_spec env store orig fm content with
    ⟨e, hg, hq⟩ | ⟨hg, hst, hq⟩ | ⟨it, hg, hst, htok, hq⟩ |
    ⟨it, tok, hg, hst, htok, hcid, hq⟩ | ⟨it, tok, pid, rp, hg, hst, htok, hcid, hs, hq⟩ |
    ⟨it, tok, pid, e, hg, hst, htok, hcid, hs, hq⟩
  · rw [hq] at hp; simp at hp
  · rcases createPath_spec env store orig fm content none [.dynamoGet orig] with
      ⟨e2, h1, hq2⟩ | ⟨c, pt, e2, h1, h2, hq2⟩ | ⟨c, pt, e2, h1, h2, h3, hq2⟩ |
      ⟨c, pt, t, e2, h1, h2, h3, hfm, h4, hq2⟩ |
      ⟨c, pt, t, rp2, e2, h1, h2, h3, hfm, h4, h5, hq2⟩ |
      ⟨c, pt, t, rp2, h1, h2, h3, hfm, h4, h5, hq2⟩ |
      ⟨c, pt, t, e2, h1, h2, h3, hfm, h5, hq2⟩ |
      ⟨c, pt, t, h1, h2, h3, hfm, h5, hq2⟩ <;>
    · rw [hq, hq2] at hp
      simp at hp
      subst hp
      exact ⟨fun _ => by simp [mkStartChatParams],
             fun it2 hit2 htok2 => by simp [mkStartChatParams],
             fun it2 tok2 pid2 e3 hit2 htok2 hcid2 hne2 hs2 => by simp [hst] at hit2,
             fun it2 tok2 e3 hit2 htok2 hcid2 hs2 => by simp [hst] at hit2⟩
  · rcases createPath_spec env store orig fm content none [.dynamoGet orig] with
      ⟨e2, h1, hq2⟩ | ⟨c, pt, e2, h1, h2, hq2⟩ | ⟨c, pt, e2, h1, h2, h3, hq2⟩ |
      ⟨c, pt, t, e2, h1, h2, h3, hfm, h4, hq2⟩ |
      ⟨c, pt, t, rp2, e2, h1, h2, h3, hfm, h4, h5, hq2⟩ |
      ⟨c, pt, t, rp2, h1, h2, h3, hfm, h4, h5, hq2⟩ |
      ⟨c, pt, t, e2, h1, h2, h3, hfm, h5, hq2⟩ |
      ⟨c, pt, t, h1, h2, h3, hfm, h5, hq2⟩ <;>
    · rw [hq, hq2] at hp
      simp at hp
      subst hp
      refine ⟨fun _ => by simp [mkStartChatParams],
              fun it2 hit2 htok2 => by simp [mkStartChatParams],
              fun it2 tok2 pid2 e3 hit2 htok2 hcid2 hne2 hs2 => ?_,
              fun it2 tok2 e3 hit2 htok2 hcid2 hs2 => ?_⟩
      · rw [hst] at hit2
        injection hit2 with h
        subst h
        rw [htok] at htok2
        cases htok2
      · rw [hst] at hit2
        injection hit2 with h
        subst h
        rw [htok] at htok2
        cases htok2
  · rw [hq] at hp; simp at hp
  · rw [hq] at hp; simp at hp
  · rcases createPath_spec env store orig fm content (some pid)
      [.dynamoGet orig, .sendMsg tok content] with
      ⟨e2, h1, hq2⟩ | ⟨c, pt, e2, h1, h2, hq2⟩ | ⟨c, pt, e2, h1, h2, h3, hq2⟩ |
      ⟨c, pt, t, e2, h1, h2, h3, hfm, h4, hq2⟩ |
      ⟨c, pt, t, rp2, e2, h1, h2, h3, hfm, h4, h5, hq2⟩ |
      ⟨c, pt, t, rp2, h1, h2, h3, hfm, h4, h5, hq2⟩ |
      ⟨c, pt, t, e2, h1, h2, h3, hfm, h5, hq2⟩ |
      ⟨c, pt, t, h1, h2, h3, hfm, h5, hq2⟩ <;>
    · rw [hq, hq2] at hp
      simp at hp
      subst hp
      refine ⟨fun hnone => ?_,
              fun it2 hit2 htok2 => ?_,
              fun it2 tok2 pid2 e3 hit2 htok2 hcid2 hne2 hs2 => ?_,
              fun it2 tok2 e3 hit2 htok2 hcid2 hs2 => ?_⟩
      · rw [hst] at hnone
        cases hnone
      · rw [hst] at hit2
        injection hit2 with h
        subst h
        rw [htok] at htok2
        cases htok2
      · rw [hst] at hit2
        injection hit2 with h
        subst h
        rw [hcid] at hcid2
        injection hcid2 with h2
        subst h2
        simp [mkStartChatParams, hne2]
      · rw [hst] at hit2
        injection hit2 with h
        subst h
        rw [hcid] at hcid2
        injection hcid2 with h2
        subst h2
        simp [mkStartChatParams]

/-- Witness for the amended C4: the concrete no-token record yields a
creation request with no rehydration block. -/
theorem claim4_witness :
    (mkStartChatParams "+640000001" "0" none).PersistentChat = none :=
  ((claim4_amended_rehydration envOk storeNoTok evB "+640000001" "0" (some "Hi") rfl)
    (mkStartChatParams "+640000001" "0" none) (by decide)).2.1
    ⟨some "C1", none, some 5⟩ rfl rfl

/-- C7: on every invocation that creates a new contact (any of the three
creation entries), the message content is sent through the new participant
connection exactly when the defaulted first-message flag equals "0" (count
1 in the trace, else count 0); the streaming, connection and persistence
calls run in either case. -/
theorem claim7_first_message_send (env : Env) (store : Store) (ev : Event)
    (orig fm : String) (content : Option String) (cid ptok newTok : String)
    (resp : SendResp)
    (hpre : preprocess env ev = .proceed orig fm content)
    (hget : env.getOutcome = .ok ())
    (hreach : reachesCreate env store orig content)
    (hchat : ∀ p, env.startChat p = .ok (cid, ptok))
    (hstream : env.startStreaming cid = .ok ())
    (hconn : env.createConnection ptok = .ok newTok)
    (hnew : env.sendMessage newTok content = .ok resp)
    (hput : env.putOutcome = .ok ()) :
    (handler env store ev).outcome = .ret (createdResp cid) ∧
    (handler env store ev).trace.count (Call.sendMsg newTok content) =
      (if fm = "0" then 1 else 0) ∧
    Call.startStreaming cid ∈ (handler env store ev).trace ∧
    Call.createConn ptok ∈ (handler env store ev).trace ∧
    Call.dynamoPut orig (mkItem env cid newTok) ∈ (handler env store ev).trace := by
  rcases hreach with hst | ⟨it, hst, htok⟩ | ⟨it, tok, prevId, e, hst, htok, hcid, hsend⟩
  · by_cases hfm : fm = "0" <;>
      simp [handler, hpre, mainFlow, hget, hst, createPath, hchat, hstream, hconn,
        hnew, hput, hfm, List.count_cons]
  · by_cases hfm : fm = "0" <;>
      simp [handler, hpre, mainFlow, hget, hst, htok, createPath, hchat, hstream, hconn,
        hnew, hput, hfm, List.count_cons]
  · have hneq : tok ≠ newTok := by
      intro h
      rw [h, hnew] at hsend
      cases hsend
    have hneq2 : newTok ≠ tok := Ne.symm hneq
    by_cases hfm : fm = "0" <;>
      simp [handler, hpre, mainFlow, hget, hst, htok, hcid, hsend, createPath, hchat,
        hstream, hconn, hnew, hput, hfm, List.count_cons, hneq, hneq2]

/-- Witness for C7 at a first message from a number with no prior record:
the message goes out through the new connection exactly once. -/
theorem claim7_witness :
    (handler envOk storeEmpty evB).outcome = .ret (createdResp "C2") ∧
    (handler envOk storeEmpty evB).trace.count (Call.sendMsg "NT" (some "Hi")) =
      (if ("0" : String) = "0" then 1 else 0) ∧
    Call.startStreaming "C2" ∈ (handler envOk storeEmpty evB).trace ∧
    Call.createConn "PT" ∈ (handler envOk storeEmpty evB).trace ∧
    Call.dynamoPut "+640000001" (mkItem envOk "C2" "NT") ∈
      (handler envOk storeEmpty evB).trace :=
  claim7_first_message_send envOk storeEmpty evB "+640000001" "0" (some "Hi")
    "C2" "PT" "NT" ⟨some "m1"⟩ rfl rfl (Or.inl rfl) (fun _ => rfl) rfl rfl rfl rfl

end Sfdc
